import Mathlib

/-!
Shallow embedding of the ai-research-saas backend (src/backend/app/main.py and
src/backend/app/agent.py): the user-profile credit store, the /generate
orchestration, the /profile getter, the /verify-payment grant, the payment
webhook handler, and the ResearchAgent report generator with its two external
collaborators (search and text generation) modelled as oracles.

Database rows live in association lists; a supabase select-by-user_id is the
first matching row, an insert is an append, and an update-by-user_id rewrites
every matching row. External collaborators (the search tool, the LLM chain,
the payment provider session lookup) are passed in as explicit parameters so
that each endpoint body is a pure state transformer.
-/

set_option autoImplicit false

namespace AiResearch

/-- Account tier stored on a user profile: Free or Pro. -/
inductive Tier where
  | Free
  | Pro
deriving DecidableEq, Repr

/-- Row of the user_profiles table (user_id is the association-list key). -/
structure UserProfile where
  credits : Int
  tier : Tier
deriving DecidableEq, Repr

/-- The user_profiles table: rows keyed by user_id, in insertion order. -/
abbrev Profiles := List (String × UserProfile)

/-- Row of the reports table written by /generate on success. -/
structure ReportRecord where
  user_id : String
  topic : String
  content : String
deriving DecidableEq, Repr

/-- Persistent state touched by the endpoints under verification. -/
structure GenState where
  profiles : Profiles
  reports : List ReportRecord
deriving DecidableEq, Repr

/-- select("*").eq("user_id", uid) followed by taking row 0: the first row of
the table whose key equals uid, if any. -/
def lookupProfile : Profiles → String → Option UserProfile
  | [], _ => none
  | q :: t, uid => if q.1 == uid then some q.2 else lookupProfile t uid

/-- update(credits).eq("user_id", uid): rewrite the credits field of every
row keyed uid, leaving tier and all other rows alone. -/
def updateCredits (ps : Profiles) (uid : String) (c : Int) : Profiles :=
  ps.map (fun p => if p.1 == uid then (p.1, { p.2 with credits := c }) else p)

/-- update(credits, tier).eq("user_id", uid): rewrite both fields of every
row keyed uid (used by the payment grant, which also sets tier). -/
def updateCreditsTier (ps : Profiles) (uid : String) (c : Int) (t : Tier) : Profiles :=
  ps.map (fun p => if p.1 == uid then (p.1, ⟨c, t⟩) else p)

/-- FastAPI HTTPException carrying a status code and a detail message. -/
structure HTTPError where
  status_code : Nat
  detail : String
deriving DecidableEq, Repr

/-- Dict returned by ResearchAgent.generate_report: status is the string
"success" or "error", report is the markdown text, sources the url list. -/
structure AgentResult where
  status : String
  report : String
  sources : List String
deriving DecidableEq, Repr

/-- Response model of the /generate endpoint. -/
structure GenerateResponse where
  status : String
  report : String
  sources : List String
  credits_left : Int
  generated_at : String
  user_id : String
deriving DecidableEq, Repr

/-- View returned by GET /profile: the credits and tier fields. -/
structure ProfileView where
  credits : Int
  tier : Tier
deriving DecidableEq, Repr

/-- One search result dict: content and url keys, each possibly absent. -/
structure SearchResult where
  content : Option String
  url : Option String
deriving DecidableEq, Repr

/-- Outcome of a call to an external collaborator: a value, or a raised
exception carrying its message. -/
inductive CollabOutcome (α : Type) where
  | ok (val : α)
  | exn (msg : String)
deriving DecidableEq, Repr

/-- Numbered context block for one search result, substituting the literal
string N/A for a missing content or url key. -/
def contextBlock (i : Nat) (r : SearchResult) : String :=
  "Source " ++ toString (i + 1) ++ ": " ++ r.content.getD "N/A" ++ "\nURL: " ++ r.url.getD "N/A"

/-- Context string fed to the prompt: numbered blocks joined by blank lines. -/
def formatContext (rs : List SearchResult) : String :=
  String.intercalate "\n\n" (rs.enum.map (fun p => contextBlock p.1 p.2))

/-- Python truthiness filter used for the source list: r.get(url) must be
present and non-empty for the row to contribute a source url. -/
def extractUrl (r : SearchResult) : Option String :=
  match r.url with
  | some u => if u == "" then none else some u
  | none => none

/-- ResearchAgent with its two collaborators: the search tool (topic to
result list, fallible) and the prompt-llm-parser chain (topic and context to
report text, fallible). -/
structure ResearchAgent where
  search : String → CollabOutcome (List SearchResult)
  llm : String → String → CollabOutcome String

/-- ResearchAgent.generate_report: search, bail out on an empty result set,
otherwise format the context, invoke the chain, and collect the truthy urls;
any collaborator exception is converted to a status error result. The second
component counts invocations of the text-generation collaborator. -/
def ResearchAgent.generateReport (a : ResearchAgent) (topic : String) : AgentResult × Nat :=
  match a.search topic with
  | .exn e => (⟨"error", "Generation failed: " ++ e, []⟩, 0)
  | .ok rs =>
    if rs.isEmpty then
      (⟨"error", "No search results found. Try a different topic.", []⟩, 0)
    else
      match a.llm topic (formatContext rs) with
      | .exn e => (⟨"error", "Generation failed: " ++ e, []⟩, 1)
      | .ok report => (⟨"success", report, rs.filterMap extractUrl⟩, 1)

/-- Tail of the POST /generate handler, once the user row has been read or
created and the in-memory credit counter set: refuse with 402 when the
counter is not positive, invoke the agent (modelled as an oracle from topics
to results), turn a status error result into a 500, otherwise persist the
report row, write back the decremented counter and answer. The third
component of the result counts agent invocations. -/
def generate_rest (st : GenState) (topic : String) (uid : String)
    (agent : String → AgentResult) (now : String) (current_credits : Int) :
    Except HTTPError GenerateResponse × GenState × Nat :=
  if current_credits ≤ 0 then
    (.error ⟨402, "Insufficient credits! Please upgrade."⟩, st, 0)
  else
    let result := agent topic
    if result.status == "error" then
      (.error ⟨500, result.report⟩, st, 1)
    else
      (.ok ⟨result.status, result.report, result.sources, current_credits - 1, now, uid⟩,
        { st with
            reports := st.reports ++ [(⟨uid, topic, result.report⟩ : ReportRecord)],
            profiles := updateCredits st.profiles uid (current_credits - 1) },
        1)

/-- Lookup-or-create step of the handler followed by the rest of the flow:
a first-time user_id is inserted with three credits on the Free tier and the
in-memory counter set to three; otherwise the counter is the stored value. -/
def generate_body (st : GenState) (topic : String) (uid : String)
    (agent : String → AgentResult) (now : String) :
    Except HTTPError GenerateResponse × GenState × Nat :=
  match lookupProfile st.profiles uid with
  | none =>
    generate_rest { st with profiles := st.profiles ++ [(uid, ⟨3, Tier.Free⟩)] }
      topic uid agent now 3
  | some p => generate_rest st topic uid agent now p.credits

/-- POST /generate including the pydantic validation gate: a topic outside 5
to 200 characters is refused with 422 before the handler body runs. -/
def generate_endpoint (st : GenState) (topic : String) (uid : String)
    (agent : String → AgentResult) (now : String) :
    Except HTTPError GenerateResponse × GenState × Nat :=
  if topic.length < 5 ∨ topic.length > 200 then
    (.error ⟨422, "String should have between 5 and 200 characters"⟩, st, 0)
  else
    generate_body st topic uid agent now

/-- GET /profile: read the stored row, or answer the default of three credits
on the Free tier without writing anything. -/
def get_user_profile (st : GenState) (uid : String) : ProfileView × GenState :=
  match lookupProfile st.profiles uid with
  | none => (⟨3, Tier.Free⟩, st)
  | some p => (⟨p.credits, p.tier⟩, st)

/-- Checkout session as retrieved from the payment provider: its payment
status string and the user_id stored in the session metadata. -/
structure CheckoutSession where
  payment_status : String
  metadata_user_id : String
deriving DecidableEq, Repr

/-- Body answered by GET /verify-payment. -/
inductive VerifyResult where
  | success (new_credits : Int)
  | pending
  | userNotFound
deriving DecidableEq, Repr

/-- GET /verify-payment: with the retrieved session, on payment status paid
read the credits of the metadata user, add fifty and write back with tier
Pro; a missing profile is answered as an error with no write; any other
payment status is answered pending with no write. -/
def verify_payment (st : GenState) (session : CheckoutSession) : VerifyResult × GenState :=
  if session.payment_status == "paid" then
    match lookupProfile st.profiles session.metadata_user_id with
    | some p =>
      let new_credits := p.credits + 50
      (.success new_credits,
        { st with profiles :=
            updateCreditsTier st.profiles session.metadata_user_id new_credits Tier.Pro })
    | none => (.userNotFound, st)
  else
    (.pending, st)

/-- Parsed webhook payload: the meta.event_name field and the
meta.custom_data.user_id field when present. -/
structure WebhookPayload where
  event_name : String
  custom_user_id : Option String
deriving DecidableEq, Repr

/-- Acknowledgement body of the webhook endpoint. -/
inductive WebhookAck where
  | received
deriving DecidableEq, Repr

/-- Modelled from the spec: the POST /webhook endpoint of the webhook-based
payment variant, which is not among the source files (only the
checkout-session variant is). Per spec section 4.4 it computes an HMAC-SHA256
digest of the raw body under the shared secret (the digest function and the
payload parser are passed in as oracles), rejects a missing or mismatched
signature with 401 and no further processing, and on event_name
order_created with a present custom_data user_id applies the fifty-credit
Pro grant to an existing profile; a missing profile, a missing user_id or any
other event name is acknowledged with no state change. -/
def webhook_endpoint (hmacSha256 : String → String → String) (secret : String)
    (st : GenState) (rawBody : String) (parse : String → WebhookPayload)
    (sigHeader : Option String) : Except HTTPError WebhookAck × GenState :=
  match sigHeader with
  | none => (.error ⟨401, "Invalid signature"⟩, st)
  | some sig =>
    if sig == hmacSha256 secret rawBody then
      let payload := parse rawBody
      if payload.event_name == "order_created" then
        match payload.custom_user_id with
        | some uid =>
          match lookupProfile st.profiles uid with
          | some p =>
            (.ok .received,
              { st with profiles := updateCreditsTier st.profiles uid (p.credits + 50) Tier.Pro })
          | none => (.ok .received, st)
        | none => (.ok .received, st)
      else
        (.ok .received, st)
    else
      (.error ⟨401, "Invalid signature"⟩, st)

/-- Every row of the profiles table carries a non-negative credit balance. -/
def ProfilesNonneg (ps : Profiles) : Prop :=
  ∀ q ∈ ps, 0 ≤ q.2.credits

instance (ps : Profiles) : Decidable (ProfilesNonneg ps) :=
  inferInstanceAs (Decidable (∀ q ∈ ps, 0 ≤ q.2.credits))

/-- The persisted-credits invariant of the whole state. -/
abbrev CreditsNonneg (st : GenState) : Prop :=
  ProfilesNonneg st.profiles

theorem lookupProfile_append_none {ps : Profiles} {uid : String} (v : UserProfile)
    (h : lookupProfile ps uid = none) :
    lookupProfile (ps ++ [(uid, v)]) uid = some v := by
  induction ps with
  | nil => simp [lookupProfile]
  | cons a t ih =>
    rw [lookupProfile] at h
    by_cases hk : a.1 == uid
    · simp [hk] at h
    · rw [List.cons_append, lookupProfile, if_neg (by simp [hk])]
      exact ih (by simpa [hk] using h)

theorem lookupProfile_updateCredits (ps : Profiles) (uid : String) (c : Int) :
    lookupProfile (updateCredits ps uid c) uid =
      (lookupProfile ps uid).map (fun q => { q with credits := c }) := by
  induction ps with
  | nil => rfl
  | cons a t ih =>
    by_cases hk : a.1 == uid
    · simp [updateCredits, lookupProfile, hk]
    · simpa [updateCredits, lookupProfile, hk] using ih

theorem lookupProfile_updateCreditsTier (ps : Profiles) (uid : String) (c : Int) (t : Tier) :
    lookupProfile (updateCreditsTier ps uid c t) uid =
      (lookupProfile ps uid).map (fun _ => (⟨c, t⟩ : UserProfile)) := by
  induction ps with
  | nil => rfl
  | cons a s ih =>
    by_cases hk : a.1 == uid
    · simp [updateCreditsTier, lookupProfile, hk]
    · simpa [updateCreditsTier, lookupProfile, hk] using ih

theorem credits_of_lookup {ps : Profiles} {uid : String} {p : UserProfile}
    (h : ProfilesNonneg ps) (hl : lookupProfile ps uid = some p) : 0 ≤ p.credits := by
  induction ps with
  | nil => simp [lookupProfile] at hl
  | cons a t ih =>
    rw [lookupProfile] at hl
    by_cases hk : a.1 == uid
    · rw [if_pos hk] at hl
      cases hl
      exact h a (List.mem_cons_self a t)
    · rw [if_neg hk] at hl
      exact ih (fun q hq => h q (List.mem_cons_of_mem a hq)) hl

theorem profilesNonneg_append_single {ps : Profiles} {uid : String} {v : UserProfile}
    (h : ProfilesNonneg ps) (hv : 0 ≤ v.credits) :
    ProfilesNonneg (ps ++ [(uid, v)]) := by
  intro q hq
  rcases List.mem_append.mp hq with h1 | h1
  · exact h q h1
  · simp only [List.mem_singleton] at h1
    subst h1
    exact hv

theorem profilesNonneg_updateCredits {ps : Profiles} {uid : String} {c : Int}
    (h : ProfilesNonneg ps) (hc : 0 ≤ c) :
    ProfilesNonneg (updateCredits ps uid c) := by
  intro q hq
  rcases List.mem_map.mp hq with ⟨r, hr, hqe⟩
  subst hqe
  by_cases hk : r.1 == uid
  · simpa [hk] using hc
  · simpa [hk] using h r hr

theorem profilesNonneg_updateCreditsTier {ps : Profiles} {uid : String} {c : Int} {t : Tier}
    (h : ProfilesNonneg ps) (hc : 0 ≤ c) :
    ProfilesNonneg (updateCreditsTier ps uid c t) := by
  intro q hq
  rcases List.mem_map.mp hq with ⟨r, hr, hqe⟩
  subst hqe
  by_cases hk : r.1 == uid
  · simpa [hk] using hc
  · simpa [hk] using h r hr

theorem generate_endpoint_valid {topic : String} (st : GenState) (uid : String)
    (agent : String → AgentResult) (now : String)
    (h5 : 5 ≤ topic.length) (h200 : topic.length ≤ 200) :
    generate_endpoint st topic uid agent now = generate_body st topic uid agent now := by
  unfold generate_endpoint
  rw [if_neg (by omega)]

theorem generate_body_some {st : GenState} {uid : String} {p : UserProfile}
    (topic : String) (agent : String → AgentResult) (now : String)
    (hp : lookupProfile st.profiles uid = some p) :
    generate_body st topic uid agent now = generate_rest st topic uid agent now p.credits := by
  unfold generate_body
  rw [hp]

theorem generate_body_none {st : GenState} {uid : String}
    (topic : String) (agent : String → AgentResult) (now : String)
    (hp : lookupProfile st.profiles uid = none) :
    generate_body st topic uid agent now =
      generate_rest { st with profiles := st.profiles ++ [(uid, ⟨3, Tier.Free⟩)] }
        topic uid agent now 3 := by
  unfold generate_body
  rw [hp]

theorem generate_rest_nopos (st : GenState) (topic uid : String)
    (agent : String → AgentResult) (now : String) {c : Int} (hc : c ≤ 0) :
    generate_rest st topic uid agent now c =
      (.error ⟨402, "Insufficient credits! Please upgrade."⟩, st, 0) := by
  unfold generate_rest
  rw [if_pos hc]

theorem generate_rest_error {agent : String → AgentResult} {topic : String}
    (st : GenState) (uid : String) (now : String) {c : Int}
    (hpos : 0 < c) (herr : (agent topic).status = "error") :
    generate_rest st topic uid agent now c = (.error ⟨500, (agent topic).report⟩, st, 1) := by
  unfold generate_rest
  rw [if_neg (by omega), if_pos (by simp [herr])]

theorem generate_rest_success {agent : String → AgentResult} {topic : String}
    (st : GenState) (uid : String) (now : String) {c : Int}
    (hpos : 0 < c) (hsucc : (agent topic).status ≠ "error") :
    generate_rest st topic uid agent now c =
      (.ok ⟨(agent topic).status, (agent topic).report, (agent topic).sources, c - 1, now, uid⟩,
        { st with
            reports := st.reports ++ [(⟨uid, topic, (agent topic).report⟩ : ReportRecord)],
            profiles := updateCredits st.profiles uid (c - 1) },
        1) := by
  unfold generate_rest
  rw [if_neg (by omega), if_neg (by simpa using hsucc)]

/-- C1: starting from any state in which every persisted credit balance is
non-negative, the /generate flow (profile check or creation, deduction only
after a successful generation, a failed generation costing nothing) and the
/verify-payment grant both leave every persisted credit balance
non-negative. -/
theorem generate_and_verify_preserve_credits_nonneg
    (st : GenState) (topic uid now : String)
    (agent : String → AgentResult) (session : CheckoutSession)
    (h : CreditsNonneg st) :
    CreditsNonneg (generate_endpoint st topic uid agent now).2.1 ∧
    CreditsNonneg (verify_payment st session).2 := by
  constructor
  · by_cases hv : topic.length < 5 ∨ topic.length > 200
    · unfold generate_endpoint
      rw [if_pos hv]
      exact h
    · push_neg at hv
      rw [generate_endpoint_valid st uid agent now hv.1 hv.2]
      cases hp : lookupProfile st.profiles uid with
      | none =>
        rw [generate_body_none topic agent now hp]
        have h1 : ProfilesNonneg (st.profiles ++ [(uid, (⟨3, Tier.Free⟩ : UserProfile))]) :=
          profilesNonneg_append_single h (by norm_num)
        by_cases he : (agent topic).status = "error"
        · rw [generate_rest_error _ _ _ (by norm_num) he]
          exact h1
        · rw [generate_rest_success _ _ _ (by norm_num) he]
          exact profilesNonneg_updateCredits h1 (by norm_num)
      | some p =>
        rw [generate_body_some topic agent now hp]
        by_cases hc : p.credits ≤ 0
        · rw [generate_rest_nopos st topic uid agent now hc]
          exact h
        · by_cases he : (agent topic).status = "error"
          · rw [generate_rest_error _ _ _ (by omega) he]
            exact h
          · rw [generate_rest_success _ _ _ (by omega) he]
            exact profilesNonneg_updateCredits h (by omega)
  · unfold verify_payment
    by_cases hpaid : session.payment_status == "paid"
    · rw [if_pos hpaid]
      cases hp : lookupProfile st.profiles session.metadata_user_id with
      | none => exact h
      | some p =>
        have hge := credits_of_lookup h hp
        exact profilesNonneg_updateCreditsTier h (by omega)
    · rw [if_neg hpaid]
      exact h

/-- C2: for a topic of valid length and a stored positive credit balance, a
successful generation answers ok with credits_left equal to the prior
balance minus one, and that same value is persisted on the user row (tier
untouched). -/
theorem generate_success_decrements_by_one
    (st : GenState) (topic uid now : String) (agent : String → AgentResult)
    (p : UserProfile)
    (h5 : 5 ≤ topic.length) (h200 : topic.length ≤ 200)
    (hp : lookupProfile st.profiles uid = some p)
    (hpos : 0 < p.credits)
    (hsucc : (agent topic).status = "success") :
    ∃ resp st2,
      generate_endpoint st topic uid agent now = (.ok resp, st2, 1) ∧
      resp.credits_left = p.credits - 1 ∧
      lookupProfile st2.profiles uid = some ⟨p.credits - 1, p.tier⟩ := by
  rw [generate_endpoint_valid st uid agent now h5 h200,
      generate_body_some topic agent now hp,
      generate_rest_success st uid now hpos (by simp [hsucc])]
  refine ⟨_, _, rfl, rfl, ?_⟩
  rw [lookupProfile_updateCredits, hp]
  rfl

/-- C3: for a stored balance that is zero or negative, /generate answers the
402 insufficient-credits error, the state is returned entirely unchanged (no
credit change, no report row) and the report generator is invoked zero
times. -/
theorem generate_insufficient_credits_no_effect
    (st : GenState) (topic uid now : String) (agent : String → AgentResult)
    (p : UserProfile)
    (h5 : 5 ≤ topic.length) (h200 : topic.length ≤ 200)
    (hp : lookupProfile st.profiles uid = some p)
    (hz : p.credits ≤ 0) :
    generate_endpoint st topic uid agent now =
      (.error ⟨402, "Insufficient credits! Please upgrade."⟩, st, 0) := by
  rw [generate_endpoint_valid st uid agent now h5 h200,
      generate_body_some topic agent now hp,
      generate_rest_nopos st topic uid agent now hz]

/-- C4: a first-time user_id gets a profile created with exactly three
credits on the Free tier before any deduction: when the generation fails the
persisted row still holds three credits, and a successful first generation
answers credits_left two and persists a row with two credits, still Free. -/
theorem generate_new_user_creates_then_deducts
    (st : GenState) (topic uid now : String) (agent : String → AgentResult)
    (h5 : 5 ≤ topic.length) (h200 : topic.length ≤ 200)
    (hp : lookupProfile st.profiles uid = none) :
    ((agent topic).status = "error" →
      generate_endpoint st topic uid agent now =
        (.error ⟨500, (agent topic).report⟩,
         { st with profiles := st.profiles ++ [(uid, ⟨3, Tier.Free⟩)] }, 1) ∧
      lookupProfile (generate_endpoint st topic uid agent now).2.1.profiles uid =
        some ⟨3, Tier.Free⟩) ∧
    ((agent topic).status ≠ "error" →
      ∃ resp st2,
        generate_endpoint st topic uid agent now = (.ok resp, st2, 1) ∧
        resp.credits_left = 2 ∧
        lookupProfile st2.profiles uid = some ⟨2, Tier.Free⟩) := by
  rw [generate_endpoint_valid st uid agent now h5 h200,
      generate_body_none topic agent now hp]
  constructor
  · intro he
    rw [generate_rest_error _ _ _ (by norm_num) he]
    exact ⟨rfl, lookupProfile_append_none _ hp⟩
  · intro he
    rw [generate_rest_success _ _ _ (by norm_num) he]
    refine ⟨_, _, rfl, rfl, ?_⟩
    rw [lookupProfile_updateCredits, lookupProfile_append_none _ hp]
    rfl

theorem length_filterMap_lt_of_none {α β : Type} {f : α → Option β} {l : List α} {r : α}
    (hr : r ∈ l) (hnone : f r = none) : (l.filterMap f).length < l.length := by
  induction l with
  | nil => cases hr
  | cons a t ih =>
    rcases List.mem_cons.mp hr with rfl | hmem
    · rw [List.filterMap_cons_none hnone]
      have := List.length_filterMap_le f t
      simp only [List.length_cons]
      omega
    · cases hf : f a with
      | none =>
        rw [List.filterMap_cons_none hf]
        have := ih hmem
        simp only [List.length_cons]
        omega
      | some b =>
        rw [List.filterMap_cons_some hf]
        have := ih hmem
        simp only [List.length_cons]
        omega

/-- C5: when the search collaborator answers an empty result set, the report
generator answers a status error with the user-facing message and an empty
source list, and the text-generation collaborator is invoked zero times. -/
theorem empty_search_errors_without_llm (a : ResearchAgent) (topic : String)
    (h : a.search topic = .ok []) :
    a.generateReport topic =
      (⟨"error", "No search results found. Try a different topic.", []⟩, 0) := by
  simp only [ResearchAgent.generateReport, h]
  rfl

/-- C6: generate_report never raises on a collaborator exception: a search
exception, or a text-generation exception on a non-empty result set, is
converted into a status error result whose report field embeds the exception
message and whose source list is empty. -/
theorem collaborator_exception_becomes_error_result (a : ResearchAgent) (topic msg : String) :
    (a.search topic = .exn msg →
      a.generateReport topic = (⟨"error", "Generation failed: " ++ msg, []⟩, 0)) ∧
    (∀ rs, a.search topic = .ok rs → rs ≠ [] →
      a.llm topic (formatContext rs) = .exn msg →
      a.generateReport topic = (⟨"error", "Generation failed: " ++ msg, []⟩, 1)) := by
  constructor
  · intro h
    simp only [ResearchAgent.generateReport, h]
  · intro rs hs hne hl
    simp only [ResearchAgent.generateReport, hs, hl]
    rw [if_neg (by simpa using hne)]

/-- C10: on a successful generation the source list is exactly the urls of
the search results that carry one (missing or empty urls dropped), in the
original order; its length never exceeds the result count, and it is
strictly shorter whenever some result lacks a url. -/
theorem success_sources_are_result_urls_in_order
    (a : ResearchAgent) (topic report : String) (rs : List SearchResult)
    (hs : a.search topic = .ok rs) (hne : rs ≠ [])
    (hl : a.llm topic (formatContext rs) = .ok report) :
    (a.generateReport topic).1 = ⟨"success", report, rs.filterMap extractUrl⟩ ∧
    (rs.filterMap extractUrl).length ≤ rs.length ∧
    ((∃ r ∈ rs, extractUrl r = none) → (rs.filterMap extractUrl).length < rs.length) := by
  refine ⟨?_, List.length_filterMap_le _ _, ?_⟩
  · simp only [ResearchAgent.generateReport, hs, hl]
    rw [if_neg (by simpa using hne)]
  · rintro ⟨r, hr, hnone⟩
    exact length_filterMap_lt_of_none hr hnone

theorem verify_payment_paid_found {st : GenState} {session : CheckoutSession} {p : UserProfile}
    (hpaid : session.payment_status = "paid")
    (hp : lookupProfile st.profiles session.metadata_user_id = some p) :
    verify_payment st session =
      (.success (p.credits + 50),
       { st with profiles :=
          updateCreditsTier st.profiles session.metadata_user_id (p.credits + 50) Tier.Pro }) := by
  simp only [verify_payment, hpaid, hp]
  rfl

theorem verify_payment_paid_missing {st : GenState} {session : CheckoutSession}
    (hpaid : session.payment_status = "paid")
    (hp : lookupProfile st.profiles session.metadata_user_id = none) :
    verify_payment st session = (.userNotFound, st) := by
  simp only [verify_payment, hpaid, hp]
  rfl

theorem verify_payment_not_paid {st : GenState} {session : CheckoutSession}
    (hpaid : session.payment_status ≠ "paid") :
    verify_payment st session = (.pending, st) := by
  simp only [verify_payment]
  rw [if_neg (by simpa using hpaid)]

/-- C7: /verify-payment on a paid session with an existing profile for the
metadata user adds exactly fifty credits, sets the tier to Pro and answers
success with the new value; a session not yet paid answers pending with the
state unchanged; a paid session for a missing profile answers the not-found
error with the state unchanged, creating nothing. -/
theorem verify_payment_grant_pending_or_notfound (st : GenState) (session : CheckoutSession) :
    (session.payment_status = "paid" →
      (∀ p, lookupProfile st.profiles session.metadata_user_id = some p →
        (verify_payment st session).1 = .success (p.credits + 50) ∧
        lookupProfile (verify_payment st session).2.profiles session.metadata_user_id =
          some ⟨p.credits + 50, Tier.Pro⟩) ∧
      (lookupProfile st.profiles session.metadata_user_id = none →
        verify_payment st session = (.userNotFound, st))) ∧
    (session.payment_status ≠ "paid" →
      verify_payment st session = (.pending, st)) := by
  refine ⟨fun hpaid => ⟨fun p hp => ?_, fun hp => verify_payment_paid_missing hpaid hp⟩,
    fun hpaid => verify_payment_not_paid hpaid⟩
  rw [verify_payment_paid_found hpaid hp]
  refine ⟨rfl, ?_⟩
  show lookupProfile
      (updateCreditsTier st.profiles session.metadata_user_id (p.credits + 50) Tier.Pro)
      session.metadata_user_id = _
  rw [lookupProfile_updateCreditsTier, hp]
  rfl

/-- C9: GET /profile for an unseen user_id is idempotent and creates
nothing: the call answers the default of three credits on the Free tier and
leaves the state untouched, so a second call observes the same default. -/
theorem profile_unseen_idempotent_default (st : GenState) (uid : String)
    (h : lookupProfile st.profiles uid = none) :
    get_user_profile st uid = (⟨3, Tier.Free⟩, st) ∧
    get_user_profile (get_user_profile st uid).2 uid = (⟨3, Tier.Free⟩, st) := by
  have h1 : get_user_profile st uid = (⟨3, Tier.Free⟩, st) := by
    simp only [get_user_profile, h]
  exact ⟨h1, by rw [h1]; exact h1⟩

/-- C8: a webhook delivery whose signature header equals the HMAC-SHA256
digest of the raw body, carrying event_name order_created and a known
user_id, adds exactly fifty credits to that user and sets the tier to Pro;
a delivery with a mismatched or missing signature header is rejected with
401 and the state is unchanged. -/
theorem webhook_grants_on_valid_signature_only
    (hmacSha256 : String → String → String) (secret : String)
    (st : GenState) (rawBody : String) (parse : String → WebhookPayload)
    (uid : String) (p : UserProfile) :
    ((parse rawBody).event_name = "order_created" →
     (parse rawBody).custom_user_id = some uid →
     lookupProfile st.profiles uid = some p →
     webhook_endpoint hmacSha256 secret st rawBody parse (some (hmacSha256 secret rawBody)) =
       (.ok .received,
        { st with profiles := updateCreditsTier st.profiles uid (p.credits + 50) Tier.Pro }) ∧
     lookupProfile
       (webhook_endpoint hmacSha256 secret st rawBody parse
         (some (hmacSha256 secret rawBody))).2.profiles uid =
       some ⟨p.credits + 50, Tier.Pro⟩) ∧
    (∀ sig, sig ≠ hmacSha256 secret rawBody →
      webhook_endpoint hmacSha256 secret st rawBody parse (some sig) =
        (.error ⟨401, "Invalid signature"⟩, st)) ∧
    webhook_endpoint hmacSha256 secret st rawBody parse none =
      (.error ⟨401, "Invalid signature"⟩, st) := by
  refine ⟨fun hev huid hp => ?_, fun sig hsig => ?_, rfl⟩
  · have he : webhook_endpoint hmacSha256 secret st rawBody parse
        (some (hmacSha256 secret rawBody)) =
        (.ok .received,
         { st with profiles := updateCreditsTier st.profiles uid (p.credits + 50) Tier.Pro }) := by
      simp only [webhook_endpoint, hev, huid, hp]
      rw [if_pos (show (hmacSha256 secret rawBody == hmacSha256 secret rawBody) = true by simp),
        if_pos (by decide)]
    refine ⟨he, ?_⟩
    rw [he]
    show lookupProfile (updateCreditsTier st.profiles uid (p.credits + 50) Tier.Pro) uid = _
    rw [lookupProfile_updateCreditsTier, hp]
    rfl
  · simp only [webhook_endpoint]
    rw [if_neg (by simpa using hsig)]

/-- Concrete store with one user holding one credit, used by witnesses. -/
def stOne : GenState := ⟨[("u1", ⟨1, Tier.Free⟩)], []⟩

/-- Concrete store with one user holding zero credits. -/
def stZero : GenState := ⟨[("u0", ⟨0, Tier.Free⟩)], []⟩

/-- Concrete empty store. -/
def stEmpty : GenState := ⟨[], []⟩

/-- Agent oracle that always succeeds. -/
def agentOk : String → AgentResult :=
  fun _ => ⟨"success", "# Report", ["https://a.example"]⟩

/-- Concrete paid checkout session for user u1. -/
def sessionPaid : CheckoutSession := ⟨"paid", "u1"⟩

/-- Search collaborator double answering the empty result set. -/
def emptySearchAgent : ResearchAgent :=
  ⟨fun _ => .ok [], fun _ _ => .ok "unused"⟩

/-- Search collaborator double that raises. -/
def exnSearchAgent : ResearchAgent :=
  ⟨fun _ => .exn "quota", fun _ _ => .ok "unused"⟩

/-- Text-generation collaborator double that raises after a non-empty
search. -/
def exnLlmAgent : ResearchAgent :=
  ⟨fun _ => .ok [⟨some "c", some "https://a.example"⟩], fun _ _ => .exn "quota"⟩

/-- Search results where the second entry has no url key. -/
def rsMixed : List SearchResult :=
  [⟨some "c1", some "https://a.example"⟩, ⟨some "c2", none⟩]

/-- Agent double whose search answers rsMixed and whose chain succeeds. -/
def mixedUrlAgent : ResearchAgent :=
  ⟨fun _ => .ok rsMixed, fun _ _ => .ok "# Report"⟩

/-- Webhook payload parser double answering order_created for user u1. -/
def parseOrderCreated : String → WebhookPayload :=
  fun _ => ⟨"order_created", some "u1"⟩

theorem generate_and_verify_preserve_credits_nonneg_witness :
    CreditsNonneg (generate_endpoint stOne "electric cars" "u1" agentOk "t0").2.1 ∧
    CreditsNonneg (verify_payment stOne sessionPaid).2 :=
  generate_and_verify_preserve_credits_nonneg stOne "electric cars" "u1" "t0" agentOk
    sessionPaid (by decide)

theorem generate_success_decrements_by_one_witness :
    ∃ resp st2,
      generate_endpoint stOne "electric cars" "u1" agentOk "t0" = (.ok resp, st2, 1) ∧
      resp.credits_left = (1 : Int) - 1 ∧
      lookupProfile st2.profiles "u1" = some ⟨(1 : Int) - 1, Tier.Free⟩ :=
  generate_success_decrements_by_one stOne "electric cars" "u1" "t0" agentOk ⟨1, Tier.Free⟩
    (by decide) (by decide) (by decide) (by decide) rfl

theorem generate_insufficient_credits_no_effect_witness :
    generate_endpoint stZero "electric cars" "u0" agentOk "t0" =
      (.error ⟨402, "Insufficient credits! Please upgrade."⟩, stZero, 0) :=
  generate_insufficient_credits_no_effect stZero "electric cars" "u0" "t0" agentOk
    ⟨0, Tier.Free⟩ (by decide) (by decide) (by decide) (by decide)

theorem generate_new_user_creates_then_deducts_witness :
    ((agentOk "electric cars").status = "error" →
      generate_endpoint stEmpty "electric cars" "u9" agentOk "t0" =
        (.error ⟨500, (agentOk "electric cars").report⟩,
         { stEmpty with profiles := stEmpty.profiles ++ [("u9", ⟨3, Tier.Free⟩)] }, 1) ∧
      lookupProfile
        (generate_endpoint stEmpty "electric cars" "u9" agentOk "t0").2.1.profiles "u9" =
        some ⟨3, Tier.Free⟩) ∧
    ((agentOk "electric cars").status ≠ "error" →
      ∃ resp st2,
        generate_endpoint stEmpty "electric cars" "u9" agentOk "t0" = (.ok resp, st2, 1) ∧
        resp.credits_left = 2 ∧
        lookupProfile st2.profiles "u9" = some ⟨2, Tier.Free⟩) :=
  generate_new_user_creates_then_deducts stEmpty "electric cars" "u9" "t0" agentOk
    (by decide) (by decide) rfl

theorem empty_search_errors_without_llm_witness :
    emptySearchAgent.generateReport "ev trends" =
      (⟨"error", "No search results found. Try a different topic.", []⟩, 0) :=
  empty_search_errors_without_llm emptySearchAgent "ev trends" rfl

theorem collaborator_exception_becomes_error_result_witness :
    exnSearchAgent.generateReport "ev trends" =
      (⟨"error", "Generation failed: " ++ "quota", []⟩, 0) ∧
    exnLlmAgent.generateReport "ev trends" =
      (⟨"error", "Generation failed: " ++ "quota", []⟩, 1) :=
  ⟨(collaborator_exception_becomes_error_result exnSearchAgent "ev trends" "quota").1 rfl,
   (collaborator_exception_becomes_error_result exnLlmAgent "ev trends" "quota").2
     [⟨some "c", some "https://a.example"⟩] rfl (by decide) rfl⟩

theorem verify_payment_grant_pending_or_notfound_witness :
    (verify_payment stOne sessionPaid).1 = .success ((1 : Int) + 50) ∧
    lookupProfile (verify_payment stOne sessionPaid).2.profiles sessionPaid.metadata_user_id =
      some ⟨(1 : Int) + 50, Tier.Pro⟩ :=
  ((verify_payment_grant_pending_or_notfound stOne sessionPaid).1 rfl).1
    ⟨1, Tier.Free⟩ (by decide)

theorem webhook_grants_on_valid_signature_only_witness :
    webhook_endpoint (fun s b => s ++ b) "sec" stOne "body" parseOrderCreated
      (some ((fun (s b : String) => s ++ b) "sec" "body")) =
      (.ok .received,
       { stOne with profiles := updateCreditsTier stOne.profiles "u1" ((1 : Int) + 50) Tier.Pro }) :=
  ((webhook_grants_on_valid_signature_only (fun s b => s ++ b) "sec" stOne "body"
      parseOrderCreated "u1" ⟨1, Tier.Free⟩).1 rfl rfl (by decide)).1

theorem profile_unseen_idempotent_default_witness :
    get_user_profile stEmpty "u9" = (⟨3, Tier.Free⟩, stEmpty) ∧
    get_user_profile (get_user_profile stEmpty "u9").2 "u9" = (⟨3, Tier.Free⟩, stEmpty) :=
  profile_unseen_idempotent_default stEmpty "u9" rfl

theorem success_sources_are_result_urls_in_order_witness :
    (mixedUrlAgent.generateReport "ev trends").1 =
      ⟨"success", "# Report", rsMixed.filterMap extractUrl⟩ ∧
    (rsMixed.filterMap extractUrl).length ≤ rsMixed.length ∧
    ((∃ r ∈ rsMixed, extractUrl r = none) →
      (rsMixed.filterMap extractUrl).length < rsMixed.length) :=
  success_sources_are_result_urls_in_order mixedUrlAgent "ev trends" "# Report" rsMixed
    rfl (by decide) rfl

end AiResearch
